import Mathlib

/-
Verification of the whisper-writer core: the key-chord input-event engine
(src/key_listener.py) and the recording/transcription pipeline
(src/result_thread.py), shallowly embedded in Lean 4.

Conventions of the embedding:
  * Python `time.time()` timestamps (float seconds) are modelled as rationals.
  * Python sets of keys are modelled as `Finset`.
  * The pluggable `transcribe` function and the `sf.write` file primitive are
    modelled as oracle parameters, so the retry loop and the failed-audio save
    can be analysed for every possible behaviour of these collaborators.
-/

namespace WhisperWriter

/-- Event kinds delivered to `KeyChord.update` (key_listener.py, class InputEvent). -/
inductive InputEvent
  | KEY_PRESS
  | KEY_RELEASE
  | MOUSE_PRESS
  | MOUSE_RELEASE
deriving DecidableEq, Repr

/-- Canonical key codes (key_listener.py, class KeyCode), in source order. -/
inductive KeyCode
  | CTRL_LEFT
  | CTRL_RIGHT
  | SHIFT_LEFT
  | SHIFT_RIGHT
  | ALT_LEFT
  | ALT_RIGHT
  | META_LEFT
  | META_RIGHT
  | F1
  | F2
  | F3
  | F4
  | F5
  | F6
  | F7
  | F8
  | F9
  | F10
  | F11
  | F12
  | F13
  | F14
  | F15
  | F16
  | F17
  | F18
  | F19
  | F20
  | F21
  | F22
  | F23
  | F24
  | ONE
  | TWO
  | THREE
  | FOUR
  | FIVE
  | SIX
  | SEVEN
  | EIGHT
  | NINE
  | ZERO
  | A
  | B
  | C
  | D
  | E
  | F
  | G
  | H
  | I
  | J
  | K
  | L
  | M
  | N
  | O
  | P
  | Q
  | R
  | S
  | T
  | U
  | V
  | W
  | X
  | Y
  | Z
  | SPACE
  | ENTER
  | TAB
  | BACKSPACE
  | ESC
  | INSERT
  | DELETE
  | HOME
  | END
  | PAGE_UP
  | PAGE_DOWN
  | CAPS_LOCK
  | NUM_LOCK
  | SCROLL_LOCK
  | PAUSE
  | PRINT_SCREEN
  | UP
  | DOWN
  | LEFT
  | RIGHT
  | NUMPAD_0
  | NUMPAD_1
  | NUMPAD_2
  | NUMPAD_3
  | NUMPAD_4
  | NUMPAD_5
  | NUMPAD_6
  | NUMPAD_7
  | NUMPAD_8
  | NUMPAD_9
  | NUMPAD_MULTIPLY
  | NUMPAD_ADD
  | NUMPAD_SUBTRACT
  | NUMPAD_DECIMAL
  | NUMPAD_DIVIDE
  | MINUS
  | EQUALS
  | LEFT_BRACKET
  | RIGHT_BRACKET
  | SEMICOLON
  | QUOTE
  | BACKQUOTE
  | BACKSLASH
  | COMMA
  | PERIOD
  | SLASH
  | MUTE
  | VOLUME_DOWN
  | VOLUME_UP
  | PLAY_PAUSE
  | NEXT_TRACK
  | PREV_TRACK
  | MEDIA_PLAY
  | MEDIA_PAUSE
  | MEDIA_PLAY_PAUSE
  | MEDIA_STOP
  | MEDIA_PREVIOUS
  | MEDIA_NEXT
  | MEDIA_REWIND
  | MEDIA_FAST_FORWARD
  | AUDIO_MUTE
  | AUDIO_VOLUME_UP
  | AUDIO_VOLUME_DOWN
  | MEDIA_SELECT
  | WWW
  | MAIL
  | CALCULATOR
  | COMPUTER
  | APP_SEARCH
  | APP_HOME
  | APP_BACK
  | APP_FORWARD
  | APP_STOP
  | APP_REFRESH
  | APP_BOOKMARKS
  | BRIGHTNESS_DOWN
  | BRIGHTNESS_UP
  | DISPLAY_SWITCH
  | KEYBOARD_ILLUMINATION_TOGGLE
  | KEYBOARD_ILLUMINATION_DOWN
  | KEYBOARD_ILLUMINATION_UP
  | EJECT
  | SLEEP
  | WAKE
  | EMOJI
  | MENU
  | CLEAR
  | LOCK
  | MOUSE_LEFT
  | MOUSE_RIGHT
  | MOUSE_MIDDLE
  | MOUSE_BACK
  | MOUSE_FORWARD
  | MOUSE_SIDE1
  | MOUSE_SIDE2
  | MOUSE_SIDE3
deriving DecidableEq, Repr

/-- Requirement slot of a chord: a plain key, or a frozenset of alternatives
(key_listener.py, `KeyChord.__init__`, `keys: Set[KeyCode | frozenset[KeyCode]]`). -/
inductive Slot
  | single (k : KeyCode)
  | anyOf (ks : Finset KeyCode)
deriving DecidableEq

/-- Enum-name lookup mirroring Python `KeyCode[key.upper()]` as used by
`KeyListener.parse_key_combination` (key_listener.py line 470): the exact
member name resolves to the member; `none` models the swallowed `KeyError`. -/
def keyCodeOfName : String → Option KeyCode
  | "CTRL_LEFT" => some .CTRL_LEFT
  | "CTRL_RIGHT" => some .CTRL_RIGHT
  | "SHIFT_LEFT" => some .SHIFT_LEFT
  | "SHIFT_RIGHT" => some .SHIFT_RIGHT
  | "ALT_LEFT" => some .ALT_LEFT
  | "ALT_RIGHT" => some .ALT_RIGHT
  | "META_LEFT" => some .META_LEFT
  | "META_RIGHT" => some .META_RIGHT
  | "F1" => some .F1
  | "F2" => some .F2
  | "F3" => some .F3
  | "F4" => some .F4
  | "F5" => some .F5
  | "F6" => some .F6
  | "F7" => some .F7
  | "F8" => some .F8
  | "F9" => some .F9
  | "F10" => some .F10
  | "F11" => some .F11
  | "F12" => some .F12
  | "F13" => some .F13
  | "F14" => some .F14
  | "F15" => some .F15
  | "F16" => some .F16
  | "F17" => some .F17
  | "F18" => some .F18
  | "F19" => some .F19
  | "F20" => some .F20
  | "F21" => some .F21
  | "F22" => some .F22
  | "F23" => some .F23
  | "F24" => some .F24
  | "ONE" => some .ONE
  | "TWO" => some .TWO
  | "THREE" => some .THREE
  | "FOUR" => some .FOUR
  | "FIVE" => some .FIVE
  | "SIX" => some .SIX
  | "SEVEN" => some .SEVEN
  | "EIGHT" => some .EIGHT
  | "NINE" => some .NINE
  | "ZERO" => some .ZERO
  | "A" => some .A
  | "B" => some .B
  | "C" => some .C
  | "D" => some .D
  | "E" => some .E
  | "F" => some .F
  | "G" => some .G
  | "H" => some .H
  | "I" => some .I
  | "J" => some .J
  | "K" => some .K
  | "L" => some .L
  | "M" => some .M
  | "N" => some .N
  | "O" => some .O
  | "P" => some .P
  | "Q" => some .Q
  | "R" => some .R
  | "S" => some .S
  | "T" => some .T
  | "U" => some .U
  | "V" => some .V
  | "W" => some .W
  | "X" => some .X
  | "Y" => some .Y
  | "Z" => some .Z
  | "SPACE" => some .SPACE
  | "ENTER" => some .ENTER
  | "TAB" => some .TAB
  | "BACKSPACE" => some .BACKSPACE
  | "ESC" => some .ESC
  | "INSERT" => some .INSERT
  | "DELETE" => some .DELETE
  | "HOME" => some .HOME
  | "END" => some .END
  | "PAGE_UP" => some .PAGE_UP
  | "PAGE_DOWN" => some .PAGE_DOWN
  | "CAPS_LOCK" => some .CAPS_LOCK
  | "NUM_LOCK" => some .NUM_LOCK
  | "SCROLL_LOCK" => some .SCROLL_LOCK
  | "PAUSE" => some .PAUSE
  | "PRINT_SCREEN" => some .PRINT_SCREEN
  | "UP" => some .UP
  | "DOWN" => some .DOWN
  | "LEFT" => some .LEFT
  | "RIGHT" => some .RIGHT
  | "NUMPAD_0" => some .NUMPAD_0
  | "NUMPAD_1" => some .NUMPAD_1
  | "NUMPAD_2" => some .NUMPAD_2
  | "NUMPAD_3" => some .NUMPAD_3
  | "NUMPAD_4" => some .NUMPAD_4
  | "NUMPAD_5" => some .NUMPAD_5
  | "NUMPAD_6" => some .NUMPAD_6
  | "NUMPAD_7" => some .NUMPAD_7
  | "NUMPAD_8" => some .NUMPAD_8
  | "NUMPAD_9" => some .NUMPAD_9
  | "NUMPAD_MULTIPLY" => some .NUMPAD_MULTIPLY
  | "NUMPAD_ADD" => some .NUMPAD_ADD
  | "NUMPAD_SUBTRACT" => some .NUMPAD_SUBTRACT
  | "NUMPAD_DECIMAL" => some .NUMPAD_DECIMAL
  | "NUMPAD_DIVIDE" => some .NUMPAD_DIVIDE
  | "MINUS" => some .MINUS
  | "EQUALS" => some .EQUALS
  | "LEFT_BRACKET" => some .LEFT_BRACKET
  | "RIGHT_BRACKET" => some .RIGHT_BRACKET
  | "SEMICOLON" => some .SEMICOLON
  | "QUOTE" => some .QUOTE
  | "BACKQUOTE" => some .BACKQUOTE
  | "BACKSLASH" => some .BACKSLASH
  | "COMMA" => some .COMMA
  | "PERIOD" => some .PERIOD
  | "SLASH" => some .SLASH
  | "MUTE" => some .MUTE
  | "VOLUME_DOWN" => some .VOLUME_DOWN
  | "VOLUME_UP" => some .VOLUME_UP
  | "PLAY_PAUSE" => some .PLAY_PAUSE
  | "NEXT_TRACK" => some .NEXT_TRACK
  | "PREV_TRACK" => some .PREV_TRACK
  | "MEDIA_PLAY" => some .MEDIA_PLAY
  | "MEDIA_PAUSE" => some .MEDIA_PAUSE
  | "MEDIA_PLAY_PAUSE" => some .MEDIA_PLAY_PAUSE
  | "MEDIA_STOP" => some .MEDIA_STOP
  | "MEDIA_PREVIOUS" => some .MEDIA_PREVIOUS
  | "MEDIA_NEXT" => some .MEDIA_NEXT
  | "MEDIA_REWIND" => some .MEDIA_REWIND
  | "MEDIA_FAST_FORWARD" => some .MEDIA_FAST_FORWARD
  | "AUDIO_MUTE" => some .AUDIO_MUTE
  | "AUDIO_VOLUME_UP" => some .AUDIO_VOLUME_UP
  | "AUDIO_VOLUME_DOWN" => some .AUDIO_VOLUME_DOWN
  | "MEDIA_SELECT" => some .MEDIA_SELECT
  | "WWW" => some .WWW
  | "MAIL" => some .MAIL
  | "CALCULATOR" => some .CALCULATOR
  | "COMPUTER" => some .COMPUTER
  | "APP_SEARCH" => some .APP_SEARCH
  | "APP_HOME" => some .APP_HOME
  | "APP_BACK" => some .APP_BACK
  | "APP_FORWARD" => some .APP_FORWARD
  | "APP_STOP" => some .APP_STOP
  | "APP_REFRESH" => some .APP_REFRESH
  | "APP_BOOKMARKS" => some .APP_BOOKMARKS
  | "BRIGHTNESS_DOWN" => some .BRIGHTNESS_DOWN
  | "BRIGHTNESS_UP" => some .BRIGHTNESS_UP
  | "DISPLAY_SWITCH" => some .DISPLAY_SWITCH
  | "KEYBOARD_ILLUMINATION_TOGGLE" => some .KEYBOARD_ILLUMINATION_TOGGLE
  | "KEYBOARD_ILLUMINATION_DOWN" => some .KEYBOARD_ILLUMINATION_DOWN
  | "KEYBOARD_ILLUMINATION_UP" => some .KEYBOARD_ILLUMINATION_UP
  | "EJECT" => some .EJECT
  | "SLEEP" => some .SLEEP
  | "WAKE" => some .WAKE
  | "EMOJI" => some .EMOJI
  | "MENU" => some .MENU
  | "CLEAR" => some .CLEAR
  | "LOCK" => some .LOCK
  | "MOUSE_LEFT" => some .MOUSE_LEFT
  | "MOUSE_RIGHT" => some .MOUSE_RIGHT
  | "MOUSE_MIDDLE" => some .MOUSE_MIDDLE
  | "MOUSE_BACK" => some .MOUSE_BACK
  | "MOUSE_FORWARD" => some .MOUSE_FORWARD
  | "MOUSE_SIDE1" => some .MOUSE_SIDE1
  | "MOUSE_SIDE2" => some .MOUSE_SIDE2
  | "MOUSE_SIDE3" => some .MOUSE_SIDE3
  | _ => none

/-- Bare / side-qualified modifier tokens (key_listener.py, `modifier_map`). -/
def modifierMap : String → Option Slot
  | "ctrl" => some (.anyOf {.CTRL_LEFT, .CTRL_RIGHT})
  | "lctrl" => some (.single .CTRL_LEFT)
  | "rctrl" => some (.single .CTRL_RIGHT)
  | "alt" => some (.anyOf {.ALT_LEFT, .ALT_RIGHT})
  | "lalt" => some (.single .ALT_LEFT)
  | "ralt" => some (.single .ALT_RIGHT)
  | "shift" => some (.anyOf {.SHIFT_LEFT, .SHIFT_RIGHT})
  | "lshift" => some (.single .SHIFT_LEFT)
  | "rshift" => some (.single .SHIFT_RIGHT)
  | "meta" => some (.anyOf {.META_LEFT, .META_RIGHT})
  | "lmeta" => some (.single .META_LEFT)
  | "rmeta" => some (.single .META_RIGHT)
  | _ => none

/-- Digit tokens (key_listener.py, `number_map`). -/
def numberMap : String → Option KeyCode
  | "0" => some .ZERO
  | "1" => some .ONE
  | "2" => some .TWO
  | "3" => some .THREE
  | "4" => some .FOUR
  | "5" => some .FIVE
  | "6" => some .SIX
  | "7" => some .SEVEN
  | "8" => some .EIGHT
  | "9" => some .NINE
  | _ => none

/-- Numpad tokens (key_listener.py, `numpad_map`). -/
def numpadMap : String → Option KeyCode
  | "numpad0" => some .NUMPAD_0
  | "numpad1" => some .NUMPAD_1
  | "numpad2" => some .NUMPAD_2
  | "numpad3" => some .NUMPAD_3
  | "numpad4" => some .NUMPAD_4
  | "numpad5" => some .NUMPAD_5
  | "numpad6" => some .NUMPAD_6
  | "numpad7" => some .NUMPAD_7
  | "numpad8" => some .NUMPAD_8
  | "numpad9" => some .NUMPAD_9
  | "multiply" => some .NUMPAD_MULTIPLY
  | "add" => some .NUMPAD_ADD
  | "subtract" => some .NUMPAD_SUBTRACT
  | "decimal" => some .NUMPAD_DECIMAL
  | "divide" => some .NUMPAD_DIVIDE
  | _ => none

/-- Python `str.lower`, modelled character-wise (ASCII case mapping); written
structurally so that it evaluates inside the kernel. -/
def pyLower (s : String) : String := ⟨s.data.map Char.toLower⟩

/-- Python `str.upper`, modelled character-wise. -/
def pyUpper (s : String) : String := ⟨s.data.map Char.toUpper⟩

/-- Python `str.strip`: drop whitespace from both ends. -/
def pyStrip (s : String) : String :=
  ⟨((s.data.dropWhile Char.isWhitespace).reverse.dropWhile Char.isWhitespace).reverse⟩

/-- Split a character list on the `+` separator (Python `str.split('+')`):
the empty string yields one empty token. -/
def splitOnPlusChars : List Char → List (List Char)
  | [] => [[]]
  | c :: cs =>
    if c = '+' then [] :: splitOnPlusChars cs
    else
      match splitOnPlusChars cs with
      | [] => [[c]]
      | t :: ts => (c :: t) :: ts

/-- Python `combination_string.split('+')` as a list of strings. -/
def pySplitPlus (s : String) : List String :=
  (splitOnPlusChars s.data).map (fun cs => ⟨cs⟩)

/-- Resolution of one lowered, stripped token, in the source's lookup order
(modifier map, number map, numpad map, then `KeyCode[token.upper()]`);
unrecognized tokens resolve to `none` and are silently dropped. -/
def resolveToken (tok : String) : Option Slot :=
  match modifierMap tok with
  | some s => some s
  | none =>
    match numberMap tok with
    | some k => some (.single k)
    | none =>
      match numpadMap tok with
      | some k => some (.single k)
      | none =>
        match keyCodeOfName (pyUpper tok) with
        | some k => some (.single k)
        | none => none

/-- Embedding of `KeyListener.parse_key_combination` (key_listener.py lines 412-475):
lower the string, split on `+`, strip each token, resolve it, collect into a set.
The Python `set` of slots is modelled as a duplicate-free list (`keys.add(...)`
inserts only when absent), so set iteration is list iteration. -/
def parseKeyCombination (combination : String) : List Slot :=
  if combination = "" then []
  else
    (pySplitPlus (pyLower combination)).foldl
      (fun keys tok =>
        match resolveToken (pyStrip tok) with
        | some s => if s ∈ keys then keys else keys ++ [s]
        | none => keys) []

/-- Mutable state of a `KeyChord` (key_listener.py, `KeyChord.__init__`):
`pressed_keys`, `last_trigger_time` (initially 0) and the latched `is_recording`. -/
structure ChordState where
  pressed : Finset KeyCode
  lastTrigger : ℚ
  isRecording : Bool
deriving DecidableEq

/-- State of a chord at construction. -/
def initChordState : ChordState := ⟨∅, 0, false⟩

/-- Debounce interval: `self.debounce_delay = 0.3` seconds. -/
def debounceDelay : ℚ := 3 / 10

/-- Truth of one requirement slot against the currently pressed keys
(key_listener.py, `KeyChord.is_active`, lines 299-304). -/
def slotSatisfied (pressed : Finset KeyCode) : Slot → Bool
  | .single k => decide (k ∈ pressed)
  | .anyOf ks => decide (∃ k ∈ ks, k ∈ pressed)

/-- Embedding of `KeyChord.is_active` (key_listener.py lines 297-305): every slot
of the chord must be satisfied. -/
def isActive (keys : List Slot) (pressed : Finset KeyCode) : Bool :=
  keys.all (slotSatisfied pressed)

/-- Target key of a single-key chord: `is_single_key` is true exactly when the
chord has one slot and that slot is a plain `KeyCode` (key_listener.py lines 255-260);
returns that key, else `none`. -/
def singleTarget : List Slot → Option KeyCode
  | [Slot.single k] => some k
  | _ => none

/-- Propositional reading of slot satisfaction, used to state `is_active` facts:
a plain slot requires its key in the pressed set, an alternative-set slot requires
at least one member in the pressed set. -/
def slotSatisfiedProp (pressed : Finset KeyCode) : Slot → Prop
  | .single k => k ∈ pressed
  | .anyOf ks => ∃ k ∈ ks, k ∈ pressed

/-- Invariant of a reachable single-key chord state: the chord is latched only
while its target key is held. -/
def singleChordInv (t : KeyCode) (st : ChordState) : Prop :=
  st.isRecording = true → t ∈ st.pressed

/-- Combination branch of `KeyChord.update` (key_listener.py lines 286-295), reached
for multi-key chords and for single-key chords hit by a non-target key. -/
def updateCombo (keys : List Slot) (st : ChordState) (now : ℚ) : Bool × ChordState :=
  if isActive keys st.pressed = true ∧ now - st.lastTrigger ≥ debounceDelay then
    (true, { st with lastTrigger := now, isRecording := true })
  else if isActive keys st.pressed = false ∧ st.isRecording = true then
    (false, { st with isRecording := false })
  else
    (st.isRecording, st)

/-- Embedding of `KeyChord.update` (key_listener.py lines 265-295). Bookkeeping first:
`pressed_keys.add` on `KEY_PRESS`, `pressed_keys.discard` on every other event kind;
then the single-key branch when the key is the target of a single-key chord, else the
combination branch. Returns the Python return value paired with the updated state. -/
def updateChord (keys : List Slot) (st : ChordState) (key : KeyCode) (ev : InputEvent)
    (now : ℚ) : Bool × ChordState :=
  let pressed1 :=
    if ev = InputEvent.KEY_PRESS then insert key st.pressed else st.pressed.erase key
  let st1 : ChordState := { st with pressed := pressed1 }
  match singleTarget keys with
  | some t =>
    if key = t then
      if ev = InputEvent.KEY_PRESS then
        if now - st1.lastTrigger ≥ debounceDelay then
          (true, { st1 with lastTrigger := now, isRecording := true })
        else
          (st1.isRecording, st1)
      else if ev = InputEvent.KEY_RELEASE then
        (false, { st1 with isRecording := false })
      else
        (st1.isRecording, st1)
    else
      updateCombo keys st1 now
  | none => updateCombo keys st1 now

/-- One raw input event as delivered to `KeyListener.on_input_event`, together with
the wall-clock time at which `update` observes it. -/
structure InEvent where
  key : KeyCode
  ev : InputEvent
  time : ℚ
deriving DecidableEq, Repr

/-- Chord state after one event. -/
def stepChord (keys : List Slot) (st : ChordState) (e : InEvent) : ChordState :=
  (updateChord keys st e.key e.ev e.time).2

/-- Chord state after a sequence of events. -/
def runChord (keys : List Slot) (st : ChordState) (es : List InEvent) : ChordState :=
  es.foldl (stepChord keys) st

/-- Rising-edge observation made by `KeyListener.on_input_event` (key_listener.py
lines 484-492): snapshot `is_active()` before the update, compare with the value
returned by `update`; a rising edge fires the activation callbacks. -/
def risingEdge (keys : List Slot) (st : ChordState) (e : InEvent) : Bool :=
  !(isActive keys st.pressed) && (updateChord keys st e.key e.ev e.time).1

/-- Rising-edge flags observed along a sequence of events. -/
def risingFlags (keys : List Slot) (st : ChordState) : List InEvent → List Bool
  | [] => []
  | e :: es => risingEdge keys st e :: risingFlags keys (stepChord keys st e) es

/-- Recording mode strings accepted by the configuration (result_thread.py line 203,
main.py line 217). -/
inductive RecordingMode
  | continuous
  | voice_activity_detection
  | press_to_toggle
  | hold_to_record
deriving DecidableEq

/-- Whether the mode runs the frame-level voice-activity classifier: the source
tests `recording_mode in ('voice_activity_detection', 'continuous')`. -/
def RecordingMode.usesVad : RecordingMode → Bool
  | .continuous => true
  | .voice_activity_detection => true
  | _ => false

/-- Loop-local state of `ResultThread._record_audio` (result_thread.py lines 205-215):
frames still to be skipped, `speech_detected`, `silent_frame_count`, and
`last_speech_time`. -/
structure RecLoopState where
  framesToSkip : ℕ
  speechDetected : Bool
  silentFrameCount : ℕ
  lastSpeechTime : ℚ
deriving DecidableEq

/-- Initial loop state: `initial_frames_to_skip = int(0.15 * sample_rate / frame_size)`
(5 at the 16 kHz / 480-sample defaults, where the arithmetic is exact), counters
zeroed, `last_speech_time = time.time()` at entry. -/
def initRecState (framesToSkip : ℕ) (t0 : ℚ) : RecLoopState :=
  ⟨framesToSkip, false, 0, t0⟩

/-- Outcome of processing one audio frame in the recording loop. -/
inductive RecStep
  | next (st : RecLoopState)
  | stop (st : RecLoopState)
  | abort (st : RecLoopState)
deriving DecidableEq

/-- One iteration of the `_record_audio` frame loop (result_thread.py lines 238-268)
on a frame classified as speech or silence at wall-clock time `now`: skip leading
frames; in the VAD-driven modes update `last_speech_time`, `speech_detected` and
`silent_frame_count` (the counter is reset and incremented only under
`recording_mode == 'continuous'`); then the continuous-timeout abort, then the
silence-based stop check. `stop` is the `break` to transcription; `abort` is the
continuous-timeout `return None`. -/
def recordStep (mode : RecordingMode) (silenceFrames : ℕ) (continuousTimeout : ℚ)
    (st : RecLoopState) (isSpeech : Bool) (now : ℚ) : RecStep :=
  if st.framesToSkip > 0 then
    .next { st with framesToSkip := st.framesToSkip - 1 }
  else
    let st :=
      if mode.usesVad then
        if isSpeech then
          { st with
            lastSpeechTime := now,
            silentFrameCount :=
              if mode = RecordingMode.continuous then 0 else st.silentFrameCount,
            speechDetected := true }
        else
          { st with
            silentFrameCount :=
              if mode = RecordingMode.continuous then st.silentFrameCount + 1
              else st.silentFrameCount }
      else st
    if mode = RecordingMode.continuous ∧ continuousTimeout > 0 ∧
        now - st.lastSpeechTime > continuousTimeout then
      .abort st
    else if mode.usesVad = true ∧ st.speechDetected = true ∧
        st.silentFrameCount > silenceFrames then
      .stop st
    else
      .next st

/-- Result of running the recording loop over a list of (speech?, time) frames:
`none` if the loop consumed every frame without breaking, `some true` if it broke
to transcription on silence, `some false` if the continuous timeout aborted the
session. -/
def runRecording (mode : RecordingMode) (silenceFrames : ℕ) (continuousTimeout : ℚ) :
    RecLoopState → List (Bool × ℚ) → Option Bool
  | _, [] => none
  | st, f :: fs =>
    match recordStep mode silenceFrames continuousTimeout st f.1 f.2 with
    | .next st' => runRecording mode silenceFrames continuousTimeout st' fs
    | .stop _ => some true
    | .abort _ => some false

/-- Default silence threshold in frames: `int(silence_duration / frame_duration_ms)`
with the 900 ms default and 30 ms frames (result_thread.py lines 198-201). -/
def defaultSilenceFrames : ℕ := 900 / 30

/-- Behaviour of one call to the injected `transcribe` function: it raises, or it
returns a string (transcription.py contract, §6 of the spec). -/
inductive Outcome
  | raises
  | returns (s : String)

/-- Accumulated observable effects of the retry loop of `ResultThread.run`
(result_thread.py lines 101-124): the current `result` variable, how many attempts
ran, how many 1-second sleeps happened, and whether the loop broke early. -/
structure LoopState where
  result : String
  attemptsMade : ℕ
  sleeps : ℕ
  broke : Bool
deriving DecidableEq

/-- One iteration of `for attempt in range(1, attempts + 1)` (result_thread.py lines
103-124): skipped if the loop already broke; a returned result is kept and breaks
the loop if non-empty and non-whitespace; an exception is caught and leaves
`result` unchanged; `time.sleep(1)` runs only when `attempt < attempts` and the
loop did not break. -/
def doAttempt (transcribeFn : ℕ → Outcome) (st : LoopState) (attempt : ℕ)
    (isLast : Bool) : LoopState :=
  if st.broke then st
  else
    let st := { st with attemptsMade := st.attemptsMade + 1 }
    match transcribeFn attempt with
    | .returns s =>
      if s ≠ "" ∧ pyStrip s ≠ "" then
        { st with result := s, broke := true }
      else
        let st := { st with result := s }
        if isLast then st else { st with sleeps := st.sleeps + 1 }
    | .raises =>
      if isLast then st else { st with sleeps := st.sleeps + 1 }

/-- The full 3-attempt retry loop with `result = ''` initially. -/
def runLoop (transcribeFn : ℕ → Outcome) : LoopState :=
  doAttempt transcribeFn
    (doAttempt transcribeFn
      (doAttempt transcribeFn ⟨"", 0, 0, false⟩ 1 false) 2 false) 3 true

/-- Observable trace of one `ResultThread.run` session from the point where audio
has been captured (result_thread.py lines 86-143): statuses emitted on
`statusSignal`, results emitted on `resultSignal`, whether `_save_failed_audio`
was called, plus the retry-loop counters and the console diagnostic that depends
on the save's returned path. -/
structure RunTrace where
  attempts : ℕ
  sleeps : ℕ
  saveCalled : Bool
  statuses : List String
  results : List String
  log : List String
deriving DecidableEq

/-- Embedding of `ResultThread.run` after `_record_audio` returned `audio`
(result_thread.py lines 86-143), with the recording status included: empty audio
goes straight back to idle; otherwise the retry loop runs, and exhaustion calls
the failed-audio save path (whose returned path `savePath` — empty on save
failure — only selects the diagnostic log line), emits `transcription_failed`
and no result; success emits `idle` and then the result. -/
def runThread (transcribeFn : ℕ → Outcome) (audio : List Int) (savePath : String) :
    RunTrace :=
  if audio = [] then
    ⟨0, 0, false, ["recording", "idle"], [], []⟩
  else
    let l := runLoop transcribeFn
    if l.result = "" ∨ pyStrip l.result = "" then
      ⟨l.attemptsMade, l.sleeps, true,
        ["recording", "transcribing", "transcription_failed"], [],
        [if savePath ≠ "" then "audio saved" else "failed to save audio"]⟩
    else
      ⟨l.attemptsMade, l.sleeps, false,
        ["recording", "transcribing", "idle"], [l.result], []⟩

/-- Embedding of `ResultThread._save_failed_audio` (result_thread.py lines 161-188).
Validation short-circuits return an empty path without touching the file system;
on validation success the body of the `try` block (directory creation and
`sf.write`) is modelled by the `write` oracle, whose exception is caught and
converted to an empty path. The returned flag records whether the write primitive
was reached. The Lean function is total: no path re-raises to the caller. -/
def saveFailedAudio (audioData : Option (List Int)) (sampleRate : Option ℚ)
    (timestamp : String) (write : String → Except String Unit) : String × Bool :=
  match audioData with
  | none => ("", false)
  | some a =>
    if a.length = 0 then ("", false)
    else
      match sampleRate with
      | none => ("", false)
      | some sr =>
        if sr ≤ 0 then ("", false)
        else
          let filePath := "~/.whisperwriter/failed_audio/failed_" ++ timestamp ++ ".flac"
          match write filePath with
          | .ok _ => (filePath, true)
          | .error _ => ("", true)

/-- Pressed-keys bookkeeping of `update` is independent of the branch taken:
the returned state always carries the post-bookkeeping set. -/
theorem updateChord_snd_pressed (keys : List Slot) (st : ChordState) (key : KeyCode)
    (ev : InputEvent) (now : ℚ) :
    (updateChord keys st key ev now).2.pressed =
      if ev = InputEvent.KEY_PRESS then insert key st.pressed else st.pressed.erase key := by
  unfold updateChord updateCombo
  cases singleTarget keys <;> dsimp only <;> split_ifs <;> rfl

/-- Last-trigger time of the post-update state is either unchanged or the event time. -/
theorem updateChord_snd_lastTrigger (keys : List Slot) (st : ChordState) (key : KeyCode)
    (ev : InputEvent) (now : ℚ) :
    (updateChord keys st key ev now).2.lastTrigger = st.lastTrigger ∨
      (updateChord keys st key ev now).2.lastTrigger = now := by
  unfold updateChord updateCombo
  cases singleTarget keys <;> dsimp only <;> split_ifs <;> simp

/-- A single-key chord singleton has itself as target. -/
theorem singleTarget_single (t : KeyCode) : singleTarget [Slot.single t] = some t := rfl

/-- Activity of a single-key chord is membership of the target key. -/
theorem isActive_single (t : KeyCode) (pressed : Finset KeyCode) :
    isActive [Slot.single t] pressed = decide (t ∈ pressed) := by
  simp [isActive, slotSatisfied]

/-- Single-key branch of `update` on a press of the target key. -/
theorem updateChord_target_press (t : KeyCode) (st : ChordState) (now : ℚ) :
    updateChord [Slot.single t] st t InputEvent.KEY_PRESS now =
      if now - st.lastTrigger ≥ debounceDelay then
        (true, ⟨insert t st.pressed, now, true⟩)
      else
        (st.isRecording, ⟨insert t st.pressed, st.lastTrigger, st.isRecording⟩) := by
  unfold updateChord
  dsimp only [singleTarget]
  split_ifs <;> simp_all

/-- Single-key branch of `update` on a release of the target key. -/
theorem updateChord_target_release (t : KeyCode) (st : ChordState) (now : ℚ) :
    updateChord [Slot.single t] st t InputEvent.KEY_RELEASE now =
      (false, ⟨st.pressed.erase t, st.lastTrigger, false⟩) := by
  unfold updateChord
  dsimp only [singleTarget]
  split_ifs <;> simp_all

/-- Latched state after the combination branch: re-latched when active and the
debounce interval elapsed, kept when active but debounced, cleared when inactive. -/
theorem updateCombo_isRecording (keys : List Slot) (st : ChordState) (now : ℚ) :
    (updateCombo keys st now).2.isRecording =
      if isActive keys st.pressed = true then
        (if now - st.lastTrigger ≥ debounceDelay then true else st.isRecording)
      else false := by
  unfold updateCombo
  split_ifs <;> simp_all

/-- Return value of the combination branch equals the latched state it leaves behind. -/
theorem updateCombo_fst (keys : List Slot) (st : ChordState) (now : ℚ) :
    (updateCombo keys st now).1 = (updateCombo keys st now).2.isRecording := by
  unfold updateCombo
  split_ifs <;> simp_all

/-- Pressed set is untouched by the combination branch. -/
theorem updateCombo_pressed (keys : List Slot) (st : ChordState) (now : ℚ) :
    (updateCombo keys st now).2.pressed = st.pressed := by
  unfold updateCombo
  split_ifs <;> rfl

/-- Last-trigger time after the combination branch: refreshed exactly by a re-latch. -/
theorem updateCombo_lastTrigger (keys : List Slot) (st : ChordState) (now : ℚ) :
    (updateCombo keys st now).2.lastTrigger =
      if isActive keys st.pressed = true ∧ now - st.lastTrigger ≥ debounceDelay then now
      else st.lastTrigger := by
  unfold updateCombo
  split_ifs <;> simp_all

/-- Events whose key is not the target of a single-key chord take the combination
branch after bookkeeping. -/
theorem updateChord_nontarget (t : KeyCode) (st : ChordState) (key : KeyCode)
    (ev : InputEvent) (now : ℚ) (hk : key ≠ t) :
    updateChord [Slot.single t] st key ev now =
      updateCombo [Slot.single t]
        { st with pressed :=
            if ev = InputEvent.KEY_PRESS then insert key st.pressed
            else st.pressed.erase key } now := by
  unfold updateChord
  dsimp only [singleTarget]
  split_ifs <;> simp_all

/-- Claim C7 fails as stated: a `MOUSE_PRESS` of a key does not add it to
`pressed_keys` — the bookkeeping tests `event_type == InputEvent.KEY_PRESS` only
(key_listener.py line 269), so every other event kind, `MOUSE_PRESS` included,
discards the key. Here the key was even pressed before the call and is gone after. -/
theorem c7_counterexample :
    KeyCode.MOUSE_LEFT ∈ ({KeyCode.MOUSE_LEFT} : Finset KeyCode) ∧
    KeyCode.MOUSE_LEFT ∉
      (updateChord [Slot.single KeyCode.A]
        ⟨{KeyCode.MOUSE_LEFT}, 0, false⟩ KeyCode.MOUSE_LEFT
        InputEvent.MOUSE_PRESS 1).2.pressed := by
  decide

/-- Claim C7 (amended): after every call `update(key, event_type)`, `key` is a
member of `pressed_keys` exactly when the event is `KEY_PRESS`; every other event
kind (`KEY_RELEASE`, `MOUSE_RELEASE`, and also `MOUSE_PRESS`) discards it —
unconditionally, for every chord, state, and key, including keys that occur in no
slot of the chord. (The backends translate mouse clicks to `KEY_PRESS`/`KEY_RELEASE`,
so a literal `MOUSE_PRESS` never reaches `update` from a backend.) -/
theorem c7_pressed_bookkeeping (keys : List Slot) (st : ChordState) (key : KeyCode)
    (ev : InputEvent) (now : ℚ) :
    key ∈ (updateChord keys st key ev now).2.pressed ↔ ev = InputEvent.KEY_PRESS := by
  rw [updateChord_snd_pressed]
  by_cases hev : ev = InputEvent.KEY_PRESS <;> simp [hev, Finset.mem_erase]

/-- Claim C9: the failed-audio save validates before writing — `None` audio, empty
audio, an unset sample rate, or a non-positive sample rate all return an empty
path without invoking the write primitive; and whenever the write primitive
raises, the exception is caught and an empty path is returned. (The embedding is
a total function, so no input re-raises to the caller.) -/
theorem c9_save_failed_audio :
    (∀ (audio : Option (List Int)) (sr : Option ℚ) (ts : String)
        (write : String → Except String Unit),
      (audio = none ∨ audio = some [] ∨ sr = none ∨ ∃ q, sr = some q ∧ q ≤ 0) →
      saveFailedAudio audio sr ts write = ("", false)) ∧
    (∀ (audio : Option (List Int)) (sr : Option ℚ) (ts : String) (err : String),
      (saveFailedAudio audio sr ts (fun _ => Except.error err)).1 = "") := by
  constructor
  · rintro audio sr ts write (rfl | rfl | rfl | ⟨q, rfl, hq⟩)
    · rfl
    · simp [saveFailedAudio]
    · rcases audio with _ | a
      · rfl
      · simp only [saveFailedAudio]
        split_ifs <;> rfl
    · rcases audio with _ | a
      · rfl
      · simp only [saveFailedAudio]
        split_ifs <;> rfl
  · intro audio sr ts err
    rcases audio with _ | a
    · rfl
    · rcases sr with _ | q
      · simp only [saveFailedAudio]
        split_ifs <;> rfl
      · simp only [saveFailedAudio]
        split_ifs <;> rfl

/-- Witness for C9 at concrete inputs: `None` audio short-circuits, and a raising
write produces an empty path. -/
theorem c9_save_failed_audio_witness :
    saveFailedAudio none (some 16000) "20240101-000000"
      (fun _ => Except.ok ()) = ("", false) ∧
    (saveFailedAudio (some [1]) (some 16000) "20240101-000000"
      (fun _ => Except.error "disk full")).1 = "" := by
  exact ⟨c9_save_failed_audio.1 none (some 16000) "20240101-000000"
      (fun _ => Except.ok ()) (Or.inl rfl),
    c9_save_failed_audio.2 (some [1]) (some 16000) "20240101-000000" "disk full"⟩

/-- Claim C10: a chord with an empty slot set — as produced by parsing an empty
combination string or one whose tokens are all unrecognized — has `is_active()`
true in every state, so the caller's rising-edge detection (`not was_active and
is_active`) never observes a rising edge on any event of any sequence, and the
activation callbacks, which fire only on rising edges, never fire. -/
theorem c10_empty_chord :
    parseKeyCombination "" = [] ∧
    parseKeyCombination "foo+bar" = [] ∧
    (∀ pressed : Finset KeyCode, isActive [] pressed = true) ∧
    (∀ (st : ChordState) (es : List InEvent),
      (risingFlags [] st es).all (fun b => !b) = true) := by
  refine ⟨rfl, by decide, fun _ => rfl, fun st es => ?_⟩
  induction es generalizing st with
  | nil => rfl
  | cons e es ih =>
    simp only [risingFlags, List.all_cons, Bool.and_eq_true]
    exact ⟨by simp [risingEdge, isActive], ih _⟩

/-- Claim C2: whenever the injected `transcribe` always returns an empty string
and the captured audio is non-empty, the session makes exactly 3 attempts, calls
the failed-audio save path, emits `recording`, `transcribing` and the terminal
`transcription_failed` status, and emits no result — and none of this depends on
the path the save returns (empty on save failure), which only selects a log line. -/
theorem c2_retry_exhaustion (transcribeFn : ℕ → Outcome) (audio : List Int)
    (savePath : String) (ha : audio ≠ [])
    (hf : ∀ n, transcribeFn n = Outcome.returns "") :
    (runThread transcribeFn audio savePath).attempts = 3 ∧
    (runThread transcribeFn audio savePath).saveCalled = true ∧
    (runThread transcribeFn audio savePath).statuses =
      ["recording", "transcribing", "transcription_failed"] ∧
    (runThread transcribeFn audio savePath).results = [] := by
  have hloop : runLoop transcribeFn = ⟨"", 3, 2, false⟩ := by
    simp [runLoop, doAttempt, hf 1, hf 2, hf 3]
  simp [runThread, ha, hloop]

/-- Witness for C2: the constant empty-string stub on one sample of audio. -/
theorem c2_retry_exhaustion_witness :
    (runThread (fun _ => Outcome.returns "") [1] "saved.flac").attempts = 3 ∧
    (runThread (fun _ => Outcome.returns "") [1] "saved.flac").saveCalled = true ∧
    (runThread (fun _ => Outcome.returns "") [1] "saved.flac").statuses =
      ["recording", "transcribing", "transcription_failed"] ∧
    (runThread (fun _ => Outcome.returns "") [1] "saved.flac").results = [] :=
  c2_retry_exhaustion (fun _ => Outcome.returns "") [1] "saved.flac"
    (by decide) (fun _ => rfl)

/-- Claim C3: when `transcribe` raises on attempt 1, returns an empty string on
attempt 2 and returns "ok" on attempt 3 (non-empty audio), the session makes
exactly 3 attempts with exactly 2 one-second sleeps (between attempts, none after
the last), never calls the failed-audio save path, and emits the result "ok"
after the `idle` status. -/
theorem c3_retry_recovery (transcribeFn : ℕ → Outcome) (audio : List Int)
    (savePath : String) (ha : audio ≠ [])
    (h1 : transcribeFn 1 = Outcome.raises)
    (h2 : transcribeFn 2 = Outcome.returns "")
    (h3 : transcribeFn 3 = Outcome.returns "ok") :
    (runThread transcribeFn audio savePath).attempts = 3 ∧
    (runThread transcribeFn audio savePath).sleeps = 2 ∧
    (runThread transcribeFn audio savePath).saveCalled = false ∧
    (runThread transcribeFn audio savePath).statuses =
      ["recording", "transcribing", "idle"] ∧
    (runThread transcribeFn audio savePath).results = ["ok"] := by
  have hloop : runLoop transcribeFn = ⟨"ok", 3, 2, true⟩ := by
    simp [runLoop, doAttempt, h1, h2, h3]
    decide
  have hok : ¬pyStrip "ok" = "" := by decide
  simp [runThread, ha, hloop, hok]

/-- Witness for C3: the raise / empty / "ok" stub on one sample of audio. -/
theorem c3_retry_recovery_witness :
    (runThread
        (fun n => if n = 1 then Outcome.raises
          else if n = 2 then Outcome.returns "" else Outcome.returns "ok")
        [1] "").attempts = 3 ∧
    (runThread
        (fun n => if n = 1 then Outcome.raises
          else if n = 2 then Outcome.returns "" else Outcome.returns "ok")
        [1] "").sleeps = 2 ∧
    (runThread
        (fun n => if n = 1 then Outcome.raises
          else if n = 2 then Outcome.returns "" else Outcome.returns "ok")
        [1] "").saveCalled = false ∧
    (runThread
        (fun n => if n = 1 then Outcome.raises
          else if n = 2 then Outcome.returns "" else Outcome.returns "ok")
        [1] "").statuses = ["recording", "transcribing", "idle"] ∧
    (runThread
        (fun n => if n = 1 then Outcome.raises
          else if n = 2 then Outcome.returns "" else Outcome.returns "ok")
        [1] "").results = ["ok"] :=
  c3_retry_recovery _ [1] "" (by decide) rfl rfl rfl

/-- In `voice_activity_detection` mode every frame yields `next`, and
`silent_frame_count` never leaves 0: both the reset and the increment sit under
`if recording_mode == 'continuous'` (result_thread.py lines 246-247 and 252-253),
so the silence-stop test at line 267 can never fire. -/
theorem recordStep_vad (sf : ℕ) (tmo : ℚ) (st : RecLoopState) (sp : Bool) (now : ℚ)
    (h0 : st.silentFrameCount = 0) :
    ∃ st', recordStep RecordingMode.voice_activity_detection sf tmo st sp now =
      RecStep.next st' ∧ st'.silentFrameCount = 0 := by
  unfold recordStep
  simp only [RecordingMode.usesVad]
  split_ifs with h1 h2 h3 h4 h5 h6 <;>
    first
      | exact ⟨_, rfl, h0⟩
      | simp_all

/-- Runs of the recording loop in `voice_activity_detection` mode starting with a
zero silent-frame counter never break to transcription. -/
theorem vad_never_stops_aux (sf : ℕ) (tmo : ℚ) :
    ∀ (frames : List (Bool × ℚ)) (st : RecLoopState), st.silentFrameCount = 0 →
      runRecording RecordingMode.voice_activity_detection sf tmo st frames ≠ some true
  | [], _, _ => by simp [runRecording]
  | f :: fs, st, h => by
    obtain ⟨st', heq, h0⟩ := recordStep_vad sf tmo st f.1 f.2 h
    rw [runRecording, heq]
    exact vad_never_stops_aux sf tmo fs st' h0

/-- Claim C1 is violated by the code in `voice_activity_detection` mode: for every
silence threshold, timeout, skip count and frame sequence, the loop never stops on
silence (first conjunct), while `continuous` mode with the default configuration
(threshold 30 frames, 5 skipped frames, timeout disabled) does stop after one
speech frame followed by 31 consecutive silent frames (second conjunct) — the
identical input on which the claim says `voice_activity_detection` must stop too. -/
theorem c1_vad_silence_never_stops :
    (∀ (silenceFrames : ℕ) (timeout : ℚ) (skip : ℕ) (t0 : ℚ)
        (frames : List (Bool × ℚ)),
      runRecording RecordingMode.voice_activity_detection silenceFrames timeout
        (initRecState skip t0) frames ≠ some true) ∧
    runRecording RecordingMode.continuous defaultSilenceFrames 0 (initRecState 5 0)
      (List.replicate 5 (false, (0 : ℚ)) ++ [(true, 0)] ++
        List.replicate 31 (false, (0 : ℚ))) = some true ∧
    runRecording RecordingMode.voice_activity_detection defaultSilenceFrames 0
      (initRecState 5 0)
      (List.replicate 5 (false, (0 : ℚ)) ++ [(true, 0)] ++
        List.replicate 31 (false, (0 : ℚ))) = none := by
  refine ⟨fun sf tmo skip t0 frames =>
    vad_never_stops_aux sf tmo frames (initRecState skip t0) rfl, by decide, by decide⟩

/-- Claim C4: for a single-key chord, a press of the target key while un-latched
with the debounce interval elapsed makes `update` return `true` and latches
`is_recording`; a release of the target key makes `update` return `false` and
un-latches, with no condition on elapsed time. -/
theorem c4_single_key_chord (t : KeyCode) (st : ChordState) (now : ℚ) :
    (st.isRecording = false → now - st.lastTrigger ≥ debounceDelay →
      (updateChord [Slot.single t] st t InputEvent.KEY_PRESS now).1 = true ∧
      (updateChord [Slot.single t] st t InputEvent.KEY_PRESS now).2.isRecording = true) ∧
    ((updateChord [Slot.single t] st t InputEvent.KEY_RELEASE now).1 = false ∧
      (updateChord [Slot.single t] st t InputEvent.KEY_RELEASE now).2.isRecording
        = false) := by
  refine ⟨fun _ hd => ?_, ?_⟩
  · rw [updateChord_target_press, if_pos hd]
    exact ⟨rfl, rfl⟩
  · rw [updateChord_target_release]
    exact ⟨rfl, rfl⟩

/-- Witness for C4: a fresh chord on key A, pressed and released at time 1. -/
theorem c4_single_key_chord_witness :
    (updateChord [Slot.single KeyCode.A] initChordState KeyCode.A
      InputEvent.KEY_PRESS 1).1 = true ∧
    (updateChord [Slot.single KeyCode.A] initChordState KeyCode.A
      InputEvent.KEY_RELEASE 1).1 = false :=
  ⟨((c4_single_key_chord KeyCode.A initChordState 1).1 rfl
      (by norm_num [initChordState, debounceDelay])).1,
    (c4_single_key_chord KeyCode.A initChordState 1).2.1⟩

/-- Boolean slot satisfaction agrees with its propositional reading. -/
theorem slotSatisfied_eq_true_iff (pressed : Finset KeyCode) (s : Slot) :
    slotSatisfied pressed s = true ↔ slotSatisfiedProp pressed s := by
  cases s <;> simp [slotSatisfied, slotSatisfiedProp]

/-- Characterization of `is_active`: all slots satisfied. -/
theorem isActive_iff (keys : List Slot) (pressed : Finset KeyCode) :
    isActive keys pressed = true ↔ ∀ s ∈ keys, slotSatisfiedProp pressed s := by
  simp only [isActive, List.all_eq_true, slotSatisfied_eq_true_iff]

/-- A chord that is not single-key always takes the combination branch. -/
theorem updateChord_none (keys : List Slot) (st : ChordState) (key : KeyCode)
    (ev : InputEvent) (now : ℚ) (hm : singleTarget keys = none) :
    updateChord keys st key ev now =
      updateCombo keys
        { st with pressed :=
            if ev = InputEvent.KEY_PRESS then insert key st.pressed
            else st.pressed.erase key } now := by
  unfold updateChord
  rw [hm]

/-- Claim C5: for every chord that is not single-key, `is_active()` is true exactly
when every slot is satisfied (a plain slot's key pressed; an alternative-set slot
with at least one member pressed); `update` latches on (false to true) exactly when
`is_active()` holds on the post-bookkeeping pressed set and the debounce interval
has elapsed, and un-latches (true to false) exactly when `is_active()` is false —
the un-latch independent of debounce. -/
theorem c5_multi_key_chord (keys : List Slot) (hm : singleTarget keys = none) :
    (∀ pressed : Finset KeyCode,
      isActive keys pressed = true ↔ ∀ s ∈ keys, slotSatisfiedProp pressed s) ∧
    (∀ (st : ChordState) (key : KeyCode) (ev : InputEvent) (now : ℚ),
      (st.isRecording = false →
        ((updateChord keys st key ev now).2.isRecording = true ↔
          isActive keys (updateChord keys st key ev now).2.pressed = true ∧
          now - st.lastTrigger ≥ debounceDelay)) ∧
      (st.isRecording = true →
        ((updateChord keys st key ev now).2.isRecording = false ↔
          isActive keys (updateChord keys st key ev now).2.pressed = false))) := by
  refine ⟨fun pressed => isActive_iff keys pressed, fun st key ev now => ?_⟩
  rw [updateChord_none keys st key ev now hm]
  rcases st with ⟨pressed, lastTrigger, isRecording⟩
  dsimp only
  rw [updateCombo_isRecording, updateCombo_pressed]
  constructor
  · rintro rfl
    by_cases ha : isActive keys
        (if ev = InputEvent.KEY_PRESS then insert key pressed
          else pressed.erase key) = true <;>
      by_cases hd : now - lastTrigger ≥ debounceDelay <;>
      simp_all
  · rintro rfl
    by_cases ha : isActive keys
        (if ev = InputEvent.KEY_PRESS then insert key pressed
          else pressed.erase key) = true <;>
      by_cases hd : now - lastTrigger ≥ debounceDelay <;>
      simp_all

/-- Witness for C5 on the chord parsed from "ctrl+r": `is_active` holds with left
Ctrl and R pressed, and an un-latched chord latches on when the combination
completes after the debounce interval. -/
theorem c5_multi_key_chord_witness :
    (isActive [Slot.anyOf {KeyCode.CTRL_LEFT, KeyCode.CTRL_RIGHT},
        Slot.single KeyCode.R] {KeyCode.CTRL_LEFT, KeyCode.R} = true) ∧
    (updateChord [Slot.anyOf {KeyCode.CTRL_LEFT, KeyCode.CTRL_RIGHT},
        Slot.single KeyCode.R] ⟨{KeyCode.CTRL_LEFT}, 0, false⟩ KeyCode.R
        InputEvent.KEY_PRESS 1).2.isRecording = true := by
  constructor
  · refine ((c5_multi_key_chord
      [Slot.anyOf {KeyCode.CTRL_LEFT, KeyCode.CTRL_RIGHT}, Slot.single KeyCode.R]
      rfl).1 {KeyCode.CTRL_LEFT, KeyCode.R}).mpr ?_
    intro s hs
    simp only [List.mem_cons, List.mem_singleton, List.not_mem_nil, or_false] at hs
    rcases hs with rfl | rfl <;> simp [slotSatisfiedProp]
  · refine (((c5_multi_key_chord
      [Slot.anyOf {KeyCode.CTRL_LEFT, KeyCode.CTRL_RIGHT}, Slot.single KeyCode.R]
      rfl).2 ⟨{KeyCode.CTRL_LEFT}, 0, false⟩ KeyCode.R InputEvent.KEY_PRESS 1).1
      rfl).mpr ⟨?_, by norm_num [debounceDelay]⟩
    rw [updateChord_snd_pressed]
    simp [isActive, slotSatisfied, Finset.mem_insert]

/-- Claim C8 fails as stated: on a single-key chord for key A, an event for a
different key B falls into the combination branch (key_listener.py lines 286-295),
so while A is held with the debounce interval elapsed, `update(B, KEY_PRESS)`
refreshes `last_trigger_time`, re-latches `is_recording` (here it even flips it
from false to true, in a state reached from a fresh chord by press, release, and
re-press of A inside the debounce window) and returns `true` — not the latched
value, and not leaving the state unchanged. -/
theorem c8_counterexample :
    runChord [Slot.single KeyCode.A] initChordState
      [⟨KeyCode.A, InputEvent.KEY_PRESS, 1⟩,
       ⟨KeyCode.A, InputEvent.KEY_RELEASE, 21/20⟩,
       ⟨KeyCode.A, InputEvent.KEY_PRESS, 11/10⟩] = ⟨{KeyCode.A}, 1, false⟩ ∧
    (updateChord [Slot.single KeyCode.A] ⟨{KeyCode.A}, 1, false⟩ KeyCode.B
      InputEvent.KEY_PRESS 2).1 = true ∧
    (updateChord [Slot.single KeyCode.A] ⟨{KeyCode.A}, 1, false⟩ KeyCode.B
      InputEvent.KEY_PRESS 2).2.isRecording = true ∧
    (updateChord [Slot.single KeyCode.A] ⟨{KeyCode.A}, 1, false⟩ KeyCode.B
      InputEvent.KEY_PRESS 2).2.lastTrigger = 2 := by
  have hne : KeyCode.B ≠ KeyCode.A := by decide
  have h1 : stepChord [Slot.single KeyCode.A] initChordState
      ⟨KeyCode.A, InputEvent.KEY_PRESS, 1⟩ = ⟨{KeyCode.A}, 1, true⟩ := by
    unfold stepChord
    dsimp only
    rw [updateChord_target_press, if_pos (by norm_num [initChordState, debounceDelay])]
    rfl
  have h2 : stepChord [Slot.single KeyCode.A] ⟨{KeyCode.A}, 1, true⟩
      ⟨KeyCode.A, InputEvent.KEY_RELEASE, 21/20⟩ = ⟨∅, 1, false⟩ := by
    unfold stepChord
    dsimp only
    rw [updateChord_target_release]
    simp
  have h3 : stepChord [Slot.single KeyCode.A] ⟨∅, 1, false⟩
      ⟨KeyCode.A, InputEvent.KEY_PRESS, 11/10⟩ = ⟨{KeyCode.A}, 1, false⟩ := by
    unfold stepChord
    dsimp only
    rw [updateChord_target_press]
    dsimp only
    rw [if_neg (by norm_num [debounceDelay])]
    rfl
  refine ⟨?_, ?_⟩
  · show List.foldl _ _ _ = _
    rw [List.foldl_cons, h1, List.foldl_cons, h2, List.foldl_cons, h3, List.foldl_nil]
  · rw [updateChord_nontarget _ _ _ _ _ hne]
    simp only [updateCombo_fst, updateCombo_isRecording, updateCombo_lastTrigger,
      isActive_single]
    norm_num [Finset.mem_insert, debounceDelay]

/-- Claim C8 (amended): for a single-key chord with target t in a reachable state
(latched only while t is held), a call `update(key, event_type)` with `key ≠ t`
behaves as follows: if t is currently pressed and the debounce interval has
elapsed since the last trigger, `update` re-latches `is_recording := true`, sets
`last_trigger_time` to the current time, and returns `true`; otherwise it returns
the currently latched `is_recording` and leaves both `is_recording` and
`last_trigger_time` unchanged (only the `pressed_keys` bookkeeping changes). -/
theorem c8_nontarget_key (t : KeyCode) (st : ChordState) (key : KeyCode)
    (ev : InputEvent) (now : ℚ) (hk : key ≠ t) (hinv : singleChordInv t st) :
    (t ∈ st.pressed ∧ now - st.lastTrigger ≥ debounceDelay →
      (updateChord [Slot.single t] st key ev now).1 = true ∧
      (updateChord [Slot.single t] st key ev now).2.isRecording = true ∧
      (updateChord [Slot.single t] st key ev now).2.lastTrigger = now) ∧
    (¬(t ∈ st.pressed ∧ now - st.lastTrigger ≥ debounceDelay) →
      (updateChord [Slot.single t] st key ev now).1 = st.isRecording ∧
      (updateChord [Slot.single t] st key ev now).2.isRecording = st.isRecording ∧
      (updateChord [Slot.single t] st key ev now).2.lastTrigger = st.lastTrigger) := by
  rw [updateChord_nontarget t st key ev now hk]
  have hmem : t ∈ (if ev = InputEvent.KEY_PRESS then insert key st.pressed
      else st.pressed.erase key) ↔ t ∈ st.pressed := by
    split_ifs <;> simp [Finset.mem_insert, Finset.mem_erase, Ne.symm hk]
  simp only [updateCombo_fst, updateCombo_isRecording, updateCombo_lastTrigger,
    isActive_single]
  constructor
  · rintro ⟨hm2, hd⟩
    have hds : decide (t ∈ (if ev = InputEvent.KEY_PRESS then insert key st.pressed
        else st.pressed.erase key)) = true := decide_eq_true (hmem.mpr hm2)
    simp [hds, hd]
  · intro hn
    by_cases hm2 : t ∈ st.pressed
    · have hd : ¬now - st.lastTrigger ≥ debounceDelay := fun hd => hn ⟨hm2, hd⟩
      have hds : decide (t ∈ (if ev = InputEvent.KEY_PRESS then insert key st.pressed
          else st.pressed.erase key)) = true := decide_eq_true (hmem.mpr hm2)
      simp [hds, hd]
    · have hrec : st.isRecording = false := by
        cases hbool : st.isRecording
        · rfl
        · exact absurd (hinv hbool) hm2
      have hds : decide (t ∈ (if ev = InputEvent.KEY_PRESS then insert key st.pressed
          else st.pressed.erase key)) = false :=
        decide_eq_false (fun h => hm2 (hmem.mp h))
      simp [hds, hrec]

/-- Witness for C8 (amended): key B pressed at time 1 while A is held on a
fresh-latched chord refreshes the trigger time and returns true. -/
theorem c8_nontarget_key_witness :
    (updateChord [Slot.single KeyCode.A] ⟨{KeyCode.A}, 0, true⟩ KeyCode.B
      InputEvent.KEY_PRESS 1).1 = true ∧
    (updateChord [Slot.single KeyCode.A] ⟨{KeyCode.A}, 0, true⟩ KeyCode.B
      InputEvent.KEY_PRESS 1).2.lastTrigger = 1 :=
  have h := c8_nontarget_key KeyCode.A ⟨{KeyCode.A}, 0, true⟩ KeyCode.B
    InputEvent.KEY_PRESS 1 (by decide) (fun _ => Finset.mem_singleton_self _)
  ⟨(h.1 ⟨Finset.mem_singleton_self _, by norm_num [debounceDelay]⟩).1,
    (h.1 ⟨Finset.mem_singleton_self _, by norm_num [debounceDelay]⟩).2.2⟩

/-- Claim C6 fails as stated: in the sequence of three presses of A at times 1,
11/10 and 6/5 from a fresh chord, the second and third presses are separated by
1/10 s, less than the debounce interval, yet the edge detection observes zero
rising edges across those two presses (the only rising edge is at the first
press) — not exactly one. -/
theorem c6_counterexample :
    ((6/5 : ℚ) - 11/10 < debounceDelay) ∧
    risingFlags [Slot.single KeyCode.A] initChordState
      [⟨KeyCode.A, InputEvent.KEY_PRESS, 1⟩,
       ⟨KeyCode.A, InputEvent.KEY_PRESS, 11/10⟩,
       ⟨KeyCode.A, InputEvent.KEY_PRESS, 6/5⟩] = [true, false, false] := by
  have h1 : stepChord [Slot.single KeyCode.A] initChordState
      ⟨KeyCode.A, InputEvent.KEY_PRESS, 1⟩ = ⟨{KeyCode.A}, 1, true⟩ := by
    unfold stepChord
    dsimp only
    rw [updateChord_target_press, if_pos (by norm_num [initChordState, debounceDelay])]
    rfl
  have h2 : stepChord [Slot.single KeyCode.A] ⟨{KeyCode.A}, 1, true⟩
      ⟨KeyCode.A, InputEvent.KEY_PRESS, 11/10⟩ = ⟨{KeyCode.A}, 1, true⟩ := by
    unfold stepChord
    dsimp only
    rw [updateChord_target_press]
    dsimp only
    rw [if_neg (by norm_num [debounceDelay])]
    simp
  have r0 : risingEdge [Slot.single KeyCode.A] initChordState
      ⟨KeyCode.A, InputEvent.KEY_PRESS, 1⟩ = true := by
    unfold risingEdge
    dsimp only
    rw [updateChord_target_press, if_pos (by norm_num [initChordState, debounceDelay]),
      isActive_single]
    simp [initChordState]
  have r1 : risingEdge [Slot.single KeyCode.A] ⟨{KeyCode.A}, 1, true⟩
      ⟨KeyCode.A, InputEvent.KEY_PRESS, 11/10⟩ = false := by
    unfold risingEdge
    rw [isActive_single]
    simp
  have r2 : risingEdge [Slot.single KeyCode.A] ⟨{KeyCode.A}, 1, true⟩
      ⟨KeyCode.A, InputEvent.KEY_PRESS, 6/5⟩ = false := by
    unfold risingEdge
    rw [isActive_single]
    simp
  refine ⟨by norm_num [debounceDelay], ?_⟩
  rw [risingFlags, risingFlags, risingFlags, risingFlags, h1, h2, r0, r1, r2]

/-- Latched-only-while-held is an invariant of every keyboard event on a
single-key chord (mouse clicks are delivered by the backends as key events). -/
theorem singleChordInv_step (t : KeyCode) (st : ChordState) (e : InEvent)
    (he : e.ev = InputEvent.KEY_PRESS ∨ e.ev = InputEvent.KEY_RELEASE) :
    singleChordInv t (stepChord [Slot.single t] st e) := by
  intro hrec
  unfold stepChord at hrec ⊢
  by_cases hk : e.key = t
  · rcases he with he | he
    · rw [hk, he, updateChord_target_press] at hrec ⊢
      split_ifs <;> exact Finset.mem_insert_self t st.pressed
    · rw [hk, he, updateChord_target_release] at hrec
      simp at hrec
  · rw [updateChord_nontarget _ _ _ _ _ hk] at hrec ⊢
    rw [updateCombo_pressed]
    rw [updateCombo_isRecording] at hrec
    by_cases ha : isActive [Slot.single t]
        ({ st with pressed :=
            if e.ev = InputEvent.KEY_PRESS then insert e.key st.pressed
            else st.pressed.erase e.key } : ChordState).pressed = true
    · rw [isActive_single] at ha
      exact of_decide_eq_true ha
    · rw [if_neg ha] at hrec
      simp at hrec

/-- The latched-only-while-held invariant holds after any run of keyboard events. -/
theorem singleChordInv_run (t : KeyCode) (st : ChordState) (es : List InEvent)
    (hes : ∀ e ∈ es, e.ev = InputEvent.KEY_PRESS ∨ e.ev = InputEvent.KEY_RELEASE)
    (h : singleChordInv t st) :
    singleChordInv t (runChord [Slot.single t] st es) := by
  induction es generalizing st with
  | nil => exact h
  | cons e es ih =>
    exact ih (stepChord [Slot.single t] st e)
      (fun e' he' => hes e' (List.mem_cons_of_mem _ he'))
      (singleChordInv_step t st e (hes e (List.mem_cons_self _ _)))

/-- One update can only keep or refresh the trigger time, never rewind it past a
bound below both the old trigger time and the event time. -/
theorem lastTrigger_le_step (keys : List Slot) (st : ChordState) (e : InEvent)
    (c : ℚ) (hst : c ≤ st.lastTrigger) (ht : c ≤ e.time) :
    c ≤ (stepChord keys st e).lastTrigger := by
  unfold stepChord
  rcases updateChord_snd_lastTrigger keys st e.key e.ev e.time with h | h <;>
    rw [h] <;> assumption

/-- The trigger-time bound persists along a run whose events are no earlier than
the bound. -/
theorem lastTrigger_le_run (keys : List Slot) (st : ChordState) (es : List InEvent)
    (c : ℚ) (hst : c ≤ st.lastTrigger) (hes : ∀ e ∈ es, c ≤ e.time) :
    c ≤ (runChord keys st es).lastTrigger := by
  induction es generalizing st with
  | nil => exact hst
  | cons e es ih =>
    exact ih (stepChord keys st e)
      (lastTrigger_le_step keys st e c hst (hes e (List.mem_cons_self _ _)))
      (fun e' he' => hes e' (List.mem_cons_of_mem _ he'))

/-- Claim C6 (amended): for a single-key chord driven by keyboard events from its
initial state, two presses of the target key separated by less than the debounce
interval (all intervening events no earlier than the first press) produce at most
one rising edge across the two presses — never two. (It can also be zero, see the
counterexample, so `exactly one` does not hold in general.) -/
theorem c6_at_most_one_rising (t : KeyCode) (pre mid : List InEvent) (e1 e2 : InEvent)
    (hpre : ∀ e ∈ pre, e.ev = InputEvent.KEY_PRESS ∨ e.ev = InputEvent.KEY_RELEASE)
    (hmidkb : ∀ e ∈ mid, e.ev = InputEvent.KEY_PRESS ∨ e.ev = InputEvent.KEY_RELEASE)
    (hmidt : ∀ e ∈ mid, e1.time ≤ e.time)
    (h1k : e1.key = t) (h1e : e1.ev = InputEvent.KEY_PRESS)
    (h2k : e2.key = t) (h2e : e2.ev = InputEvent.KEY_PRESS)
    (hclose : e2.time - e1.time < debounceDelay) :
    ¬(risingEdge [Slot.single t] (runChord [Slot.single t] initChordState pre) e1
        = true ∧
      risingEdge [Slot.single t]
        (runChord [Slot.single t]
          (stepChord [Slot.single t] (runChord [Slot.single t] initChordState pre) e1)
          mid) e2 = true) := by
  rintro ⟨hr1, hr2⟩
  have hinv1 : singleChordInv t (runChord [Slot.single t] initChordState pre) :=
    singleChordInv_run t initChordState pre hpre (by intro hx; simp [initChordState] at hx)
  unfold risingEdge at hr1
  rw [h1k, h1e, updateChord_target_press, isActive_single] at hr1
  simp only [apply_ite Prod.fst, Bool.and_eq_true, Bool.not_eq_true',
    decide_eq_false_iff_not] at hr1
  obtain ⟨hnm1, hret1⟩ := hr1
  by_cases hel : e1.time -
      (runChord [Slot.single t] initChordState pre).lastTrigger ≥ debounceDelay
  · have hstep : stepChord [Slot.single t]
        (runChord [Slot.single t] initChordState pre) e1 =
        ⟨insert t (runChord [Slot.single t] initChordState pre).pressed,
          e1.time, true⟩ := by
      unfold stepChord
      rw [h1k, h1e, updateChord_target_press, if_pos hel]
    have hinv2 : singleChordInv t (runChord [Slot.single t]
        (stepChord [Slot.single t] (runChord [Slot.single t] initChordState pre) e1)
        mid) := by
      refine singleChordInv_run t _ mid hmidkb ?_
      intro _
      rw [hstep]
      exact Finset.mem_insert_self _ _
    have hlt : e1.time ≤ (runChord [Slot.single t]
        (stepChord [Slot.single t] (runChord [Slot.single t] initChordState pre) e1)
        mid).lastTrigger := by
      refine lastTrigger_le_run _ _ mid e1.time ?_ hmidt
      rw [hstep]
    unfold risingEdge at hr2
    rw [h2k, h2e, updateChord_target_press, isActive_single] at hr2
    simp only [apply_ite Prod.fst, Bool.and_eq_true, Bool.not_eq_true',
      decide_eq_false_iff_not] at hr2
    obtain ⟨hnm2, hret2⟩ := hr2
    have hel2 : ¬(e2.time - (runChord [Slot.single t]
        (stepChord [Slot.single t] (runChord [Slot.single t] initChordState pre) e1)
        mid).lastTrigger ≥ debounceDelay) := by
      intro hge
      have hsub : e2.time - (runChord [Slot.single t]
          (stepChord [Slot.single t] (runChord [Slot.single t] initChordState pre) e1)
          mid).lastTrigger ≤ e2.time - e1.time := sub_le_sub_left hlt _
      linarith
    rw [if_neg hel2] at hret2
    exact hnm2 (hinv2 hret2)
  · rw [if_neg hel] at hret1
    exact hnm1 (hinv1 hret1)

/-- Witness for C6 (amended): presses of A at times 1 and 11/10 with nothing in
between produce at most one rising edge. -/
theorem c6_at_most_one_rising_witness :
    ¬(risingEdge [Slot.single KeyCode.A]
        (runChord [Slot.single KeyCode.A] initChordState [])
        ⟨KeyCode.A, InputEvent.KEY_PRESS, 1⟩ = true ∧
      risingEdge [Slot.single KeyCode.A]
        (runChord [Slot.single KeyCode.A]
          (stepChord [Slot.single KeyCode.A]
            (runChord [Slot.single KeyCode.A] initChordState [])
            ⟨KeyCode.A, InputEvent.KEY_PRESS, 1⟩) [])
        ⟨KeyCode.A, InputEvent.KEY_PRESS, 11/10⟩ = true) :=
  c6_at_most_one_rising KeyCode.A [] []
    ⟨KeyCode.A, InputEvent.KEY_PRESS, 1⟩ ⟨KeyCode.A, InputEvent.KEY_PRESS, 11/10⟩
    (by simp) (by simp) (by simp) rfl rfl rfl rfl
    (by norm_num [debounceDelay])

end WhisperWriter
